import Mathlib

/-!
Shallow embedding of src/india_weather_forcast.py.

Modelling conventions:
* Scalar JSON/CSV cell values are represented by their textual CSV rendering
  as String, except the timestamp column, whose cells are TsVal: TsVal.dt is
  a datetime64 value, produced by pd.to_datetime at line 60 from the dt_txt
  string (format YYYY-MM-DD HH:MM:SS) and rendered back to that very string
  by to_csv, while TsVal.str is a plain string cell as returned by
  pd.read_csv, which does not parse dates.  drop_duplicates compares cells
  by value and in pandas a string never equals a Timestamp, so the two tags
  are distinct deduplication keys, exactly as in the program.
* Python exceptions relevant to the program are the constructors of PyError.
  A dictionary lookup on a missing key raises keyError; indexing an empty
  list raises indexError.  requests.exceptions.RequestException, covering
  transport and HTTP-status failure, is folded into
  FetchOutcome.requestError since get_weather_data catches exactly that
  class and nothing else.
* The filesystem seen by save_weather_data is FS: the content at the fixed
  output path, carried as the rows that were written, plus two environment
  flags saying whether a read of an existing file, or a write, fails with an
  error other than FileNotFoundError.  pd.read_csv is modelled by read_csv,
  which returns every timestamp cell as the plain string stored in the text
  file.
-/

inductive PyError where
  | keyError
  | indexError
  | readError
  | writeError
deriving DecidableEq, Repr

/-- Dictionary lookup d[k] on an optional field: raises KeyError when the
key is absent. -/
def pyKey {α : Type} (o : Option α) : Except PyError α :=
  match o with
  | some a => Except.ok a
  | none => Except.error PyError.keyError

/-- Indexing l[0]: raises IndexError on an empty list. -/
def pyIndex0 {α : Type} (l : List α) : Except PyError α :=
  match l with
  | a :: _ => Except.ok a
  | [] => Except.error PyError.indexError

/-- A cell of the timestamp column.  TsVal.dt is a datetime64 value
carrying its rendering (pd.to_datetime of a dt_txt string, written back as
that same string by to_csv); TsVal.str is a plain string cell as produced
by pd.read_csv.  Equality of TsVal is the equality pandas drop_duplicates
uses on the column: a string is never equal to a Timestamp, even when the
rendering coincides. -/
inductive TsVal where
  | dt (s : String)
  | str (s : String)
deriving DecidableEq, Repr

/-- The text a timestamp cell renders to in the CSV file. -/
def renderTs : TsVal → String
  | TsVal.dt s => s
  | TsVal.str s => s

/-- Whether a timestamp cell is a datetime64 value, as in a table freshly
returned by get_weather_data. -/
def TsVal.isDt : TsVal → Bool
  | TsVal.dt _ => true
  | TsVal.str _ => false

/-- The main sub-dictionary of an entry: keys temp, humidity, pressure. -/
structure MainBlock where
  temp : Option String
  humidity : Option String
  pressure : Option String
deriving DecidableEq, Repr

/-- The wind sub-dictionary of an entry: key speed. -/
structure WindBlock where
  speed : Option String
deriving DecidableEq, Repr

/-- The rain sub-dictionary of an entry: key 3h. -/
structure RainBlock where
  rain3h : Option String
deriving DecidableEq, Repr

/-- The clouds sub-dictionary of an entry: key all. -/
structure CloudsBlock where
  all : Option String
deriving DecidableEq, Repr

/-- One element of the weather list of an entry: keys icon, description. -/
structure WeatherItem where
  icon : Option String
  wdescription : Option String
deriving DecidableEq, Repr

/-- One entry of the list field of the response body.  Each field is Option
because the JSON object may lack the corresponding key. -/
structure Entry where
  dt_txt : Option String
  main : Option MainBlock
  wind : Option WindBlock
  visibility : Option String
  rain : Option RainBlock
  clouds : Option CloudsBlock
  weather : Option (List WeatherItem)
deriving DecidableEq, Repr

/-- The parsed JSON body of a successful response: the program only reads
the list key. -/
structure Body where
  list : Option (List Entry)
deriving DecidableEq, Repr

/-- Outcome of requests.get plus raise_for_status plus json() for one city:
either some RequestException was raised, or a parsed body is available. -/
inductive FetchOutcome where
  | requestError
  | success (body : Body)
deriving DecidableEq, Repr

/-- One row of the DataFrame built by get_weather_data.  There is no city
column: that is added afterwards by the driver. -/
structure Row where
  timestamp : TsVal
  temperature : String
  humidity : String
  wind_speed : String
  pressure : String
  visibility : Option String
  rainfall : String
  cloud_cover : String
  icon : String
  rdescription : String
deriving DecidableEq, Repr

/-- One row of a table carrying the city column added by the driver. -/
structure CityRow where
  timestamp : TsVal
  temperature : String
  humidity : String
  wind_speed : String
  pressure : String
  visibility : Option String
  rainfall : String
  cloud_cover : String
  icon : String
  rdescription : String
  city : String
deriving DecidableEq, Repr

/-- The loop body of get_weather_data for one item of the response list, in
source order of the lookups: dt_txt, main.temp, main.humidity, wind.speed,
main.pressure, then item.get(visibility, None), then
item.get(rain, emptyDict).get(3h, 0), then clouds.all, weather[0].icon,
weather[0].description.  Required lookups raise; the two optional lookups
default to None and 0.  The per-column pd.to_datetime at line 60, applied
before the DataFrame is returned, is folded into row construction: the
timestamp cell of a fetched row is the datetime64 value TsVal.dt ts. -/
def processEntry (item : Entry) : Except PyError Row := do
  let ts ← pyKey item.dt_txt
  let m ← pyKey item.main
  let temp ← pyKey m.temp
  let hum ← pyKey m.humidity
  let w ← pyKey item.wind
  let spd ← pyKey w.speed
  let pres ← pyKey m.pressure
  let vis := item.visibility
  let rainAmt := (item.rain.getD ⟨none⟩).rain3h.getD "0"
  let cl ← pyKey item.clouds
  let clAll ← pyKey cl.all
  let ws ← pyKey item.weather
  let w0 ← pyIndex0 ws
  let ic ← pyKey w0.icon
  let de ← pyKey w0.wdescription
  Except.ok { timestamp := TsVal.dt ts, temperature := temp, humidity := hum,
              wind_speed := spd, pressure := pres, visibility := vis,
              rainfall := rainAmt, cloud_cover := clAll, icon := ic,
              rdescription := de }

/-- The loop over the entries of the response list: the first raising entry
aborts the whole fetch, since the per-column lists are never turned into a
DataFrame in that case. -/
def processEntries : List Entry → Except PyError (List Row)
  | [] => Except.ok []
  | e :: rest =>
      match processEntry e with
      | Except.error err => Except.error err
      | Except.ok r =>
          match processEntries rest with
          | Except.error err => Except.error err
          | Except.ok rs => Except.ok (r :: rs)

/-- get_weather_data as a function of the outcome of the HTTP request for
that city.  Only RequestException is caught, yielding the None sentinel; a
KeyError or IndexError raised while indexing the parsed body propagates to
the caller. -/
def get_weather_data (outcome : FetchOutcome) : Except PyError (Option (List Row)) :=
  match outcome with
  | FetchOutcome.requestError => Except.ok none
  | FetchOutcome.success body =>
      match body.list with
      | none => Except.error PyError.keyError
      | some entries =>
          match processEntries entries with
          | Except.ok rows => Except.ok (some rows)
          | Except.error e => Except.error e

/-- The deduplication key used by drop_duplicates: the pair of the
timestamp and city cells, compared by value (so a TsVal.str timestamp
never matches a TsVal.dt one). -/
def rowKey (r : CityRow) : TsVal × String := (r.timestamp, r.city)

/-- First-occurrence filter underlying drop_duplicates, the pandas default
keep=first, with seen the keys already emitted. -/
def drop_dup_go : List (TsVal × String) → List CityRow → List CityRow
  | _, [] => []
  | seen, r :: rs =>
      if rowKey r ∈ seen then drop_dup_go seen rs
      else r :: drop_dup_go (rowKey r :: seen) rs

/-- DataFrame.drop_duplicates on the subset of the timestamp and city
columns: keep the first row for each key, preserving order. -/
def drop_duplicates (l : List CityRow) : List CityRow := drop_dup_go [] l

/-- The filesystem state at the output path together with the failure
environment for this run: file is the table stored at the path, carried as
the rows that were written (none when the path does not exist), readFails
says whether pd.read_csv on an existing file raises an error other than
FileNotFoundError, and writeFails says whether to_csv raises.  Reading the
file back goes through read_csv below, which forgets the datetime64 tag of
every timestamp cell, as the text file stores only the rendering. -/
structure FS where
  file : Option (List CityRow)
  readFails : Bool
  writeFails : Bool
deriving DecidableEq, Repr

/-- What pd.read_csv returns for one stored row: every cell comes back as
the plain text in the file, so the timestamp cell is the string rendering
of whatever was written — never a datetime64 value. -/
def readBackRow (r : CityRow) : CityRow :=
  { r with timestamp := TsVal.str (renderTs r.timestamp) }

/-- pd.read_csv on the stored table: the rows as written, with every
timestamp cell read back as a plain string. -/
def read_csv (rows : List CityRow) : List CityRow := rows.map readBackRow

/-- The body of save_weather_data up to the outer catch-all handler: read
the existing file with pd.read_csv, where FileNotFoundError is caught by
the inner handler and treated as no prior data but any other read error
escapes; merge by concatenation of the read-back prior rows first and the
new rows after, drop_duplicates on the (timestamp, city) key; then rewrite
the file in full. -/
def trySave (df : List CityRow) (fs : FS) : Except PyError FS :=
  match fs.file with
  | none =>
      if fs.writeFails then Except.error PyError.writeError
      else Except.ok { fs with file := some df }
  | some prior =>
      if fs.readFails then Except.error PyError.readError
      else if fs.writeFails then Except.error PyError.writeError
      else Except.ok { fs with file := some (drop_duplicates (read_csv prior ++ df)) }

/-- save_weather_data: the outer catch-all handler catches every error
raised by the body, prints, and returns normally with the file unchanged,
so the function never raises to its caller. -/
def save_weather_data (df : List CityRow) (fs : FS) : FS :=
  match trySave df fs with
  | Except.ok fs1 => fs1
  | Except.error _ => fs

/-- Assigning the city column to one row of a fetched table. -/
def tagCity (c : String) (r : Row) : CityRow :=
  { timestamp := r.timestamp, temperature := r.temperature,
    humidity := r.humidity, wind_speed := r.wind_speed,
    pressure := r.pressure, visibility := r.visibility,
    rainfall := r.rainfall, cloud_cover := r.cloud_cover, icon := r.icon,
    rdescription := r.rdescription, city := c }

/-- The driver loop over the registry items: fetch each city, and on
success tag every row with the city display name and accumulate the table;
on the None sentinel skip the city.  An uncaught exception from
get_weather_data aborts the loop and the process. -/
def fetchAll (registry : List (String × String))
    (responses : String → FetchOutcome) : Except PyError (List (List CityRow)) :=
  match registry with
  | [] => Except.ok []
  | (city, cid) :: rest =>
      match get_weather_data (responses cid) with
      | Except.error e => Except.error e
      | Except.ok none => fetchAll rest responses
      | Except.ok (some rows) =>
          match fetchAll rest responses with
          | Except.error e => Except.error e
          | Except.ok tail => Except.ok (rows.map (tagCity city) :: tail)

/-- The top-level block: run all fetches; if at least one table was
accumulated, concatenate them in order and call save_weather_data once;
otherwise print and exit without touching the file.  The result is an
error exactly when the process dies with that uncaught exception. -/
def runMain (registry : List (String × String))
    (responses : String → FetchOutcome) (fs : FS) : Except PyError FS :=
  match fetchAll registry responses with
  | Except.error e => Except.error e
  | Except.ok tables =>
      if tables.isEmpty then Except.ok fs
      else Except.ok (save_weather_data tables.flatten fs)

/-- The compiled-in CITIES registry, in insertion order. -/
def CITIES : List (String × String) :=
  [("Dehradun", "1273313"), ("Delhi", "1273294"), ("Mumbai", "1275339"),
   ("Kolkata", "1275004"), ("Chennai", "1264527"), ("Bengaluru", "1277333"),
   ("Hyderabad", "1269843"), ("Ahmedabad", "1279233"), ("Pune", "1259229"),
   ("Jaipur", "1269515"), ("Lucknow", "1264733"), ("Patna", "1260086"),
   ("Bhopal", "1275841"), ("Thiruvananthapuram", "1269743"),
   ("Guwahati", "1271476"), ("Ranchi", "1258526"), ("Shillong", "1256523"),
   ("Aizawl", "1277765"), ("Imphal", "1269750"), ("Itanagar", "1278341"),
   ("Agartala", "1278314"), ("Panaji", "1271157"), ("Raipur", "1273066"),
   ("Chandigarh", "1274746"), ("Srinagar", "1255634"), ("Shimla", "1256237"),
   ("Gangtok", "1254029")]

/-- An entry provides every field the loop reads with a raising lookup; the
optional visibility and rain fields are unconstrained. -/
def wellFormedEntry (e : Entry) : Bool :=
  e.dt_txt.isSome &&
  (match e.main with
   | some m => m.temp.isSome && m.humidity.isSome && m.pressure.isSome
   | none => false) &&
  (match e.wind with
   | some w => w.speed.isSome
   | none => false) &&
  (match e.clouds with
   | some c => c.all.isSome
   | none => false) &&
  (match e.weather with
   | some (w0 :: _) => w0.icon.isSome && w0.wdescription.isSome
   | _ => false)

/-- A fetch outcome that raises nothing outside the caught RequestException
class: either a request failure, or a body with a list of well-formed
entries. -/
def wellFormedOutcome : FetchOutcome → Bool
  | FetchOutcome.requestError => true
  | FetchOutcome.success body =>
      match body.list with
      | some entries => entries.all wellFormedEntry
      | none => false

/-- The CSV header row written by to_csv with index=False. -/
def csvHeader : String :=
  "timestamp,temperature,humidity,wind_speed,pressure,visibility,rainfall,cloud_cover,icon,description,city"

/-- One data line of the output CSV: a missing visibility renders as the
empty field. -/
def renderCityRow (r : CityRow) : String :=
  renderTs r.timestamp ++ "," ++ r.temperature ++ "," ++ r.humidity ++ "," ++
  r.wind_speed ++ "," ++ r.pressure ++ "," ++ (r.visibility.getD "") ++ "," ++
  r.rainfall ++ "," ++ r.cloud_cover ++ "," ++ r.icon ++ "," ++
  r.rdescription ++ "," ++ r.city

/-- The full text of the output CSV file, line by line. -/
def renderFile (rows : List CityRow) : List String :=
  csvHeader :: rows.map renderCityRow

/-! ### Properties of the first-occurrence deduplication filter -/

/-- Keys tracked while scanning a list, starting from seen. -/
def seen_after : List (TsVal × String) → List CityRow → List (TsVal × String)
  | seen, [] => seen
  | seen, r :: rs =>
      if rowKey r ∈ seen then seen_after seen rs
      else seen_after (rowKey r :: seen) rs

theorem mem_of_mem_drop_dup_go {seen : List (TsVal × String)}
    {l : List CityRow} {r : CityRow} (h : r ∈ drop_dup_go seen l) :
    r ∈ l ∧ rowKey r ∉ seen := by
  induction l generalizing seen with
  | nil => simp [drop_dup_go] at h
  | cons a rs ih =>
      by_cases ha : rowKey a ∈ seen
      · rw [drop_dup_go, if_pos ha] at h
        rcases ih h with ⟨h1, h2⟩
        exact ⟨List.mem_cons_of_mem _ h1, h2⟩
      · rw [drop_dup_go, if_neg ha] at h
        rcases List.mem_cons.mp h with rfl | h
        · exact ⟨List.mem_cons_self _ _, ha⟩
        · rcases ih h with ⟨h1, h2⟩
          refine ⟨List.mem_cons_of_mem _ h1, fun hk => ?_⟩
          exact h2 (List.mem_cons_of_mem _ hk)

theorem drop_dup_go_pairwise (seen : List (TsVal × String)) (l : List CityRow) :
    List.Pairwise (fun a b => rowKey a ≠ rowKey b) (drop_dup_go seen l) := by
  induction l generalizing seen with
  | nil => simp [drop_dup_go]
  | cons a rs ih =>
      by_cases ha : rowKey a ∈ seen
      · rw [drop_dup_go, if_pos ha]
        exact ih seen
      · rw [drop_dup_go, if_neg ha]
        refine List.Pairwise.cons ?_ (ih _)
        intro b hb hk
        apply (mem_of_mem_drop_dup_go hb).2
        rw [← hk]
        exact List.mem_cons_self _ _

theorem drop_dup_go_append (seen : List (TsVal × String)) (l1 l2 : List CityRow) :
    drop_dup_go seen (l1 ++ l2) =
      drop_dup_go seen l1 ++ drop_dup_go (seen_after seen l1) l2 := by
  induction l1 generalizing seen with
  | nil => simp [drop_dup_go, seen_after]
  | cons a rs ih =>
      by_cases ha : rowKey a ∈ seen <;>
        simp [drop_dup_go, seen_after, ha, ih]

theorem mem_seen_after {k : TsVal × String} (seen : List (TsVal × String))
    (l : List CityRow) :
    k ∈ seen_after seen l ↔ k ∈ seen ∨ k ∈ l.map rowKey := by
  induction l generalizing seen with
  | nil => simp [seen_after]
  | cons a rs ih =>
      by_cases ha : rowKey a ∈ seen
      · rw [seen_after, if_pos ha, ih]
        simp only [List.map_cons, List.mem_cons]
        constructor
        · rintro (h | h)
          · exact Or.inl h
          · exact Or.inr (Or.inr h)
        · rintro (h | h | h)
          · exact Or.inl h
          · exact Or.inl (by rw [h]; exact ha)
          · exact Or.inr h
      · rw [seen_after, if_neg ha, ih]
        simp only [List.map_cons, List.mem_cons]
        tauto

theorem drop_dup_go_eq_nil {seen : List (TsVal × String)} {l : List CityRow}
    (h : ∀ r ∈ l, rowKey r ∈ seen) : drop_dup_go seen l = [] := by
  induction l with
  | nil => rfl
  | cons a rs ih =>
      have ha := h a (List.mem_cons_self _ _)
      rw [drop_dup_go, if_pos ha]
      exact ih (fun r hr => h r (List.mem_cons_of_mem _ hr))

theorem drop_dup_go_of_pairwise {seen : List (TsVal × String)} {l : List CityRow}
    (h1 : ∀ r ∈ l, rowKey r ∉ seen)
    (h2 : List.Pairwise (fun a b => rowKey a ≠ rowKey b) l) :
    drop_dup_go seen l = l := by
  induction l generalizing seen with
  | nil => rfl
  | cons a rs ih =>
      cases h2 with
      | cons hrel htail =>
          have ha : rowKey a ∉ seen := h1 a (List.mem_cons_self _ _)
          rw [drop_dup_go, if_neg ha]
          congr 1
          apply ih ?_ htail
          intro r hr
          simp only [List.mem_cons, not_or]
          exact ⟨fun he => hrel r hr he.symm, h1 r (List.mem_cons_of_mem _ hr)⟩

theorem key_mem_drop_dup_go {k : TsVal × String} {seen : List (TsVal × String)}
    {l : List CityRow} (hk : k ∉ seen) :
    k ∈ (drop_dup_go seen l).map rowKey ↔ k ∈ l.map rowKey := by
  induction l generalizing seen with
  | nil => simp [drop_dup_go]
  | cons a rs ih =>
      by_cases ha : rowKey a ∈ seen
      · rw [drop_dup_go, if_pos ha, ih hk]
        simp only [List.map_cons, List.mem_cons]
        constructor
        · exact Or.inr
        · rintro (rfl | h)
          · exact absurd ha hk
          · exact h
      · by_cases hka : k = rowKey a
        · subst hka
          rw [drop_dup_go, if_neg ha]
          simp
        · have hk2 : k ∉ rowKey a :: seen := by
            simp only [List.mem_cons, not_or]
            exact ⟨hka, hk⟩
          rw [drop_dup_go, if_neg ha]
          simp only [List.map_cons, List.mem_cons, ih hk2]

theorem drop_duplicates_append_of_subset {l l2 : List CityRow}
    (h : ∀ r ∈ l2, rowKey r ∈ l.map rowKey) :
    drop_duplicates (l ++ l2) = drop_duplicates l := by
  have h2 : drop_dup_go (seen_after [] l) l2 = [] := by
    apply drop_dup_go_eq_nil
    intro r hr
    rw [mem_seen_after]
    exact Or.inr (h r hr)
  show drop_dup_go [] (l ++ l2) = drop_dup_go [] l
  rw [drop_dup_go_append, h2, List.append_nil]

theorem drop_duplicates_eq_self {l : List CityRow}
    (h : List.Pairwise (fun a b => rowKey a ≠ rowKey b) l) :
    drop_duplicates l = l :=
  drop_dup_go_of_pairwise (by simp) h

theorem drop_duplicates_idem (l : List CityRow) :
    drop_duplicates (drop_duplicates l) = drop_duplicates l :=
  drop_duplicates_eq_self (drop_dup_go_pairwise [] l)

theorem key_mem_drop_duplicates {k : TsVal × String} {l : List CityRow} :
    k ∈ (drop_duplicates l).map rowKey ↔ k ∈ l.map rowKey :=
  key_mem_drop_dup_go (by simp)

theorem first_occ_mem_drop_dup_go {seen : List (TsVal × String)}
    {l1 l2 : List CityRow} {p : CityRow}
    (h1 : ∀ q ∈ l1, rowKey q ≠ rowKey p) (h2 : rowKey p ∉ seen) :
    p ∈ drop_dup_go seen (l1 ++ p :: l2) := by
  induction l1 generalizing seen with
  | nil =>
      rw [List.nil_append, drop_dup_go, if_neg h2]
      exact List.mem_cons_self _ _
  | cons a rs ih =>
      by_cases ha : rowKey a ∈ seen
      · rw [List.cons_append, drop_dup_go, if_pos ha]
        exact ih (fun q hq => h1 q (List.mem_cons_of_mem _ hq)) h2
      · rw [List.cons_append, drop_dup_go, if_neg ha]
        apply List.mem_cons_of_mem
        apply ih (fun q hq => h1 q (List.mem_cons_of_mem _ hq))
        simp only [List.mem_cons, not_or]
        exact ⟨fun he => h1 a (List.mem_cons_self _ _) he.symm, h2⟩

/-! ### Well-formed entries are processed into rows -/

theorem processEntry_ok_fields {e : Entry} (h : wellFormedEntry e = true) :
    ∃ r, processEntry e = Except.ok r ∧ r.visibility = e.visibility ∧
      r.rainfall = (e.rain.getD ⟨none⟩).rain3h.getD "0" := by
  obtain ⟨dt, m, w, vis, rain, cl, ws⟩ := e
  simp only [wellFormedEntry, Bool.and_eq_true] at h
  obtain ⟨⟨⟨⟨h1, h2⟩, h3⟩, h4⟩, h5⟩ := h
  obtain ⟨ts, rfl⟩ := Option.isSome_iff_exists.mp h1
  rcases m with _ | mb
  · simp at h2
  obtain ⟨mt, mh, mp⟩ := mb
  simp only [Bool.and_eq_true] at h2
  obtain ⟨⟨h2a, h2b⟩, h2c⟩ := h2
  obtain ⟨tv, rfl⟩ := Option.isSome_iff_exists.mp h2a
  obtain ⟨hv, rfl⟩ := Option.isSome_iff_exists.mp h2b
  obtain ⟨pv, rfl⟩ := Option.isSome_iff_exists.mp h2c
  rcases w with _ | wb
  · simp at h3
  obtain ⟨wsp⟩ := wb
  obtain ⟨sv, rfl⟩ := Option.isSome_iff_exists.mp (by simpa using h3)
  rcases cl with _ | cb
  · simp at h4
  obtain ⟨ca⟩ := cb
  obtain ⟨cv, rfl⟩ := Option.isSome_iff_exists.mp (by simpa using h4)
  rcases ws with _ | wl
  · simp at h5
  rcases wl with _ | ⟨w0, wrest⟩
  · simp at h5
  obtain ⟨ic, de⟩ := w0
  simp only [Bool.and_eq_true] at h5
  obtain ⟨h5a, h5b⟩ := h5
  obtain ⟨iv, rfl⟩ := Option.isSome_iff_exists.mp h5a
  obtain ⟨dv, rfl⟩ := Option.isSome_iff_exists.mp h5b
  exact ⟨_, rfl, rfl, rfl⟩

theorem processEntry_ok_of_wellFormed {e : Entry} (h : wellFormedEntry e = true) :
    ∃ r, processEntry e = Except.ok r := by
  obtain ⟨r, hr, -, -⟩ := processEntry_ok_fields h
  exact ⟨r, hr⟩

theorem processEntries_ok_of_wellFormed {entries : List Entry}
    (h : ∀ e ∈ entries, wellFormedEntry e = true) :
    ∃ rows, processEntries entries = Except.ok rows ∧
      rows.length = entries.length ∧
      ∀ i : Nat, rows[i]? = (entries[i]?).bind fun e => (processEntry e).toOption := by
  induction entries with
  | nil =>
      refine ⟨[], rfl, rfl, ?_⟩
      intro i
      simp
  | cons e rest ih =>
      obtain ⟨r, hr⟩ := processEntry_ok_of_wellFormed (h e (List.mem_cons_self _ _))
      obtain ⟨rows, hrows, hlen, hget⟩ := ih (fun x hx => h x (List.mem_cons_of_mem _ hx))
      refine ⟨r :: rows, ?_, by simp [hlen], ?_⟩
      · rw [processEntries, hr, hrows]
      · intro i
        cases i with
        | zero => simp [hr, Except.toOption]
        | succ n => simpa using hget n

theorem get_weather_data_ok_of_wellFormed {o : FetchOutcome}
    (h : wellFormedOutcome o = true) :
    ∃ res, get_weather_data o = Except.ok res := by
  cases o with
  | requestError => exact ⟨none, rfl⟩
  | success body =>
      obtain ⟨lst⟩ := body
      rcases lst with _ | entries
      · simp [wellFormedOutcome] at h
      · have h2 : ∀ e ∈ entries, wellFormedEntry e = true := by
          simpa [wellFormedOutcome, List.all_eq_true] using h
        obtain ⟨rows, hrows, -, -⟩ := processEntries_ok_of_wellFormed h2
        refine ⟨some rows, ?_⟩
        simp only [get_weather_data, hrows]

theorem fetchAll_ok_of_wellFormed {registry : List (String × String)}
    {responses : String → FetchOutcome}
    (h : ∀ p ∈ registry, wellFormedOutcome (responses p.2) = true) :
    ∃ tables, fetchAll registry responses = Except.ok tables := by
  induction registry with
  | nil => exact ⟨[], rfl⟩
  | cons q rest ih =>
      obtain ⟨city, cid⟩ := q
      obtain ⟨res, hres⟩ := get_weather_data_ok_of_wellFormed (h _ (List.mem_cons_self _ _))
      obtain ⟨tail, htail⟩ := ih (fun p hp => h p (List.mem_cons_of_mem _ hp))
      rcases res with _ | rows
      · exact ⟨tail, by rw [fetchAll, hres, htail]⟩
      · exact ⟨rows.map (tagCity city) :: tail, by rw [fetchAll, hres, htail]⟩

/-! ### Concrete fixtures -/

/-- The mocked response entry of the end-to-end scenario: one list entry
with temp 30.5, humidity 40, wind speed 3.2, pressure 1008, clouds 10,
icon 01d, description clear sky, and neither visibility nor rain. -/
def goodEntry : Entry :=
  { dt_txt := some "2024-06-01 12:00:00",
    main := some { temp := some "30.5", humidity := some "40", pressure := some "1008" },
    wind := some { speed := some "3.2" },
    visibility := none, rain := none,
    clouds := some { all := some "10" },
    weather := some [{ icon := some "01d", wdescription := some "clear sky" }] }

/-- A second well-formed entry, with the optional visibility and rain
fields present. -/
def goodEntry2 : Entry :=
  { dt_txt := some "2024-06-01 15:00:00",
    main := some { temp := some "31.1", humidity := some "38", pressure := some "1007" },
    wind := some { speed := some "4.0" },
    visibility := some "10000", rain := some { rain3h := some "0.25" },
    clouds := some { all := some "40" },
    weather := some [{ icon := some "02d", wdescription := some "few clouds" }] }

/-- A malformed entry: the required main field is missing, so the lookup of
item main raises KeyError. -/
def badEntry : Entry :=
  { dt_txt := some "2024-06-01 12:00:00",
    main := none,
    wind := some { speed := some "3.2" },
    visibility := none, rain := none,
    clouds := some { all := some "10" },
    weather := some [{ icon := some "01d", wdescription := some "clear sky" }] }

/-- The row the end-to-end scenario is expected to persist. -/
def rowDelhi : CityRow :=
  { timestamp := TsVal.dt "2024-06-01 12:00:00", temperature := "30.5", humidity := "40",
    wind_speed := "3.2", pressure := "1008", visibility := none, rainfall := "0",
    cloud_cover := "10", icon := "01d", rdescription := "clear sky",
    city := "Delhi" }

/-- A prior-file row with the same (timestamp, city) key as rowDelhi but a
different temperature value. -/
def rowPrior : CityRow :=
  { timestamp := TsVal.dt "2024-06-01 12:00:00", temperature := "29.0", humidity := "45",
    wind_speed := "2.5", pressure := "1010", visibility := some "8000",
    rainfall := "0", cloud_cover := "15", icon := "02d",
    rdescription := "few clouds", city := "Delhi" }

/-- A row with a key distinct from rowDelhi and rowPrior. -/
def rowOther : CityRow :=
  { timestamp := TsVal.dt "2024-06-02 12:00:00", temperature := "25.0", humidity := "50",
    wind_speed := "2.0", pressure := "1000", visibility := some "9000",
    rainfall := "1", cloud_cover := "20", icon := "03d",
    rdescription := "scattered clouds", city := "Mumbai" }

/-! ### Claim theorems -/

/-- C1, counterexample: a run over the one-city registry Delhi whose
response is successful but contains an entry missing the required main
field dies with an uncaught KeyError — the per-city handler catches only
RequestException, so the lookup failure is not caught, the city is not
skipped, and the program does not terminate normally. -/
theorem malformed_entry_crashes_run :
    runMain [("Delhi", "1273294")]
        (fun _ => FetchOutcome.success ⟨some [badEntry]⟩) ⟨none, false, false⟩ =
      Except.error PyError.keyError := by
  rfl

/-- C1, amended: per-city transport and HTTP failures and the failure
environment of the persist step (read failures other than
FileNotFoundError, write failures) never escape — for every run in which
each successful response carries a list of entries containing all the
required fields, the program terminates normally; a malformed entry,
however, raises an uncaught exception (see the counterexample). -/
theorem run_terminates_normally_of_wellformed {registry : List (String × String)}
    {responses : String → FetchOutcome} (fs : FS)
    (h : ∀ p ∈ registry, wellFormedOutcome (responses p.2) = true) :
    ∃ fs1, runMain registry responses fs = Except.ok fs1 := by
  obtain ⟨tables, ht⟩ := fetchAll_ok_of_wellFormed h
  rcases tables with _ | ⟨t, ts⟩
  · exact ⟨fs, by unfold runMain; rw [ht]; rfl⟩
  · exact ⟨save_weather_data (t :: ts).flatten fs, by unfold runMain; rw [ht]; rfl⟩

/-- Witness for the amended C1 at a concrete input: a registry of one city
with a well-formed successful response, a pre-existing file, and a failing
write environment still terminate normally. -/
theorem run_terminates_normally_of_wellformed_witness :
    (∀ p ∈ [("Delhi", "1273294")],
      wellFormedOutcome ((fun _ => FetchOutcome.success ⟨some [goodEntry]⟩) p.2) = true) ∧
    (∃ fs1, runMain [("Delhi", "1273294")]
        (fun _ => FetchOutcome.success ⟨some [goodEntry]⟩)
        ⟨some [rowOther], false, true⟩ = Except.ok fs1) :=
  ⟨by decide, run_terminates_normally_of_wellformed ⟨some [rowOther], false, true⟩ (by decide)⟩

/-- C4: for a successful response whose body contains a list of forecast
entries, get_weather_data returns a table with exactly one row per entry,
in the order of the entries. -/
theorem fetch_one_row_per_entry {entries : List Entry}
    (h : ∀ e ∈ entries, wellFormedEntry e = true) :
    ∃ rows, get_weather_data (FetchOutcome.success ⟨some entries⟩) =
        Except.ok (some rows) ∧
      rows.length = entries.length ∧
      ∀ i : Nat, rows[i]? = (entries[i]?).bind fun e => (processEntry e).toOption := by
  obtain ⟨rows, hrows, hlen, hget⟩ := processEntries_ok_of_wellFormed h
  refine ⟨rows, ?_, hlen, hget⟩
  simp only [get_weather_data, hrows]

/-- Witness for C4 at a concrete two-entry response. -/
theorem fetch_one_row_per_entry_witness :
    (∀ e ∈ [goodEntry, goodEntry2], wellFormedEntry e = true) ∧
    (∃ rows, get_weather_data (FetchOutcome.success ⟨some [goodEntry, goodEntry2]⟩) =
        Except.ok (some rows) ∧
      rows.length = [goodEntry, goodEntry2].length ∧
      ∀ i : Nat, rows[i]? = ([goodEntry, goodEntry2][i]?).bind
        fun e => (processEntry e).toOption) :=
  ⟨by decide, fetch_one_row_per_entry (by decide)⟩

/-- C5: an entry lacking the rain 3h field yields a row with rainfall 0,
and an entry lacking the visibility field yields a row with a null
visibility; in both cases the row is still produced. -/
theorem fetch_optional_field_defaults {e : Entry} (h : wellFormedEntry e = true) :
    ∃ r, processEntry e = Except.ok r ∧
      ((e.rain = none ∨ ∃ rb, e.rain = some rb ∧ rb.rain3h = none) →
        r.rainfall = "0") ∧
      (e.visibility = none → r.visibility = none) := by
  obtain ⟨r, hr, hvis, hrain⟩ := processEntry_ok_fields h
  refine ⟨r, hr, ?_, ?_⟩
  · rintro (hnone | ⟨rb, hrb, h3⟩)
    · rw [hrain, hnone]
      rfl
    · rw [hrain, hrb]
      simp only [Option.getD_some, h3]
      rfl
  · intro h0
    rw [hvis, h0]

/-- Witness for C5 at a concrete entry lacking both optional fields. -/
theorem fetch_optional_field_defaults_witness :
    wellFormedEntry goodEntry = true ∧
    (∃ r, processEntry goodEntry = Except.ok r ∧
      ((goodEntry.rain = none ∨ ∃ rb, goodEntry.rain = some rb ∧ rb.rain3h = none) →
        r.rainfall = "0") ∧
      (goodEntry.visibility = none → r.visibility = none)) :=
  ⟨by decide, fetch_optional_field_defaults (by decide)⟩

/-- C6: when every city fetch fails with a request error, the driver never
calls the persister and the whole filesystem state, in particular any
pre-existing file at the output path, is returned unchanged. -/
theorem no_write_when_all_fetches_fail {registry : List (String × String)}
    {responses : String → FetchOutcome} (fs : FS)
    (h : ∀ p ∈ registry, responses p.2 = FetchOutcome.requestError) :
    runMain registry responses fs = Except.ok fs := by
  have hf : fetchAll registry responses = Except.ok [] := by
    induction registry with
    | nil => rfl
    | cons q rest ih =>
        obtain ⟨city, cid⟩ := q
        have hq : responses cid = FetchOutcome.requestError :=
          h (city, cid) (List.mem_cons_self _ _)
        simp only [fetchAll, hq, get_weather_data]
        exact ih (fun p hp => h p (List.mem_cons_of_mem _ hp))
  unfold runMain
  rw [hf]
  rfl

/-- Witness for C6: all 27 registry cities fail; a pre-existing file is
untouched. -/
theorem no_write_when_all_fetches_fail_witness :
    (∀ p ∈ CITIES, (fun _ => FetchOutcome.requestError) p.2 = FetchOutcome.requestError) ∧
    runMain CITIES (fun _ => FetchOutcome.requestError) ⟨some [rowPrior], false, false⟩ =
      Except.ok ⟨some [rowPrior], false, false⟩ :=
  ⟨by decide, no_write_when_all_fetches_fail ⟨some [rowPrior], false, false⟩ (by decide)⟩

/-- A read-back row never shares a deduplication key with a row whose
timestamp is a datetime64 value: the first components differ by tag. -/
theorem rowKey_readBack_ne_dt {a b : CityRow} (hb : b.timestamp.isDt = true) :
    rowKey (readBackRow a) ≠ rowKey b := by
  intro h
  have h1 : TsVal.str (renderTs a.timestamp) = b.timestamp :=
    congrArg Prod.fst h
  rw [← h1] at hb
  simp [TsVal.isDt] at hb

/-- On rows whose timestamps are datetime64 values, equality of the
read-back keys implies equality of the original keys. -/
theorem rowKey_eq_of_readBack_eq {a b : CityRow} (ha : a.timestamp.isDt = true)
    (hb : b.timestamp.isDt = true)
    (h : rowKey (readBackRow a) = rowKey (readBackRow b)) :
    rowKey a = rowKey b := by
  obtain ⟨sa, hsa⟩ : ∃ s, a.timestamp = TsVal.dt s := by
    cases hx : a.timestamp with
    | dt s => exact ⟨s, rfl⟩
    | str s => rw [hx] at ha; simp [TsVal.isDt] at ha
  obtain ⟨sb, hsb⟩ : ∃ s, b.timestamp = TsVal.dt s := by
    cases hx : b.timestamp with
    | dt s => exact ⟨s, rfl⟩
    | str s => rw [hx] at hb; simp [TsVal.isDt] at hb
  have h1 : TsVal.str (renderTs a.timestamp) = TsVal.str (renderTs b.timestamp) :=
    congrArg Prod.fst h
  have h2 : a.city = b.city := congrArg Prod.snd h
  rw [hsa, hsb] at h1
  simp only [renderTs, TsVal.str.injEq] at h1
  show (a.timestamp, a.city) = (b.timestamp, b.city)
  rw [hsa, hsb, h1, h2]

/-- Reading a row back does not change the text it renders to. -/
theorem renderCityRow_readBackRow (r : CityRow) :
    renderCityRow (readBackRow r) = renderCityRow r := by
  obtain ⟨t, a, b, c, d, e, f, g, h, i, j⟩ := r
  cases t <;> rfl

/-- C2, counterexample: saving the one-row table of the end-to-end scenario
twice in a row yields a file holding two rows — the read-back row with its
string timestamp and the fresh row with its datetime64 timestamp — which
render to the identical CSV data line, so the second save does introduce a
duplicate (timestamp, city) row, while a single persistence holds one. -/
theorem save_twice_duplicates_rows :
    (save_weather_data [rowDelhi]
        (save_weather_data [rowDelhi] ⟨none, false, false⟩)).file =
      some [readBackRow rowDelhi, rowDelhi] ∧
    renderFile [readBackRow rowDelhi, rowDelhi] =
      [csvHeader,
       "2024-06-01 12:00:00,30.5,40,3.2,1008,,0,10,01d,clear sky,Delhi",
       "2024-06-01 12:00:00,30.5,40,3.2,1008,,0,10,01d,clear sky,Delhi"] ∧
    renderFile [rowDelhi] =
      [csvHeader,
       "2024-06-01 12:00:00,30.5,40,3.2,1008,,0,10,01d,clear sky,Delhi"] := by
  refine ⟨rfl, rfl, rfl⟩

/-- C2, amended: the second save deduplicates nothing across the saves —
read_csv returns string timestamps while the table carries datetime64
values, so the keys never match — and writes the read-back rows followed by
the whole table again, duplicating every data line textually; only the set
of distinct rendered lines equals that of a single persistence. -/
theorem save_twice_appends_without_cross_dedup {df : List CityRow} {fs : FS}
    (hfile : fs.file = none) (hr : fs.readFails = false)
    (hw : fs.writeFails = false)
    (hdt : ∀ r ∈ df, r.timestamp.isDt = true)
    (hnd : drop_duplicates df = df) :
    (save_weather_data df fs).file = some df ∧
    (save_weather_data df (save_weather_data df fs)).file =
      some (read_csv df ++ df) ∧
    renderFile (read_csv df ++ df) =
      csvHeader :: (df.map renderCityRow ++ df.map renderCityRow) ∧
    (renderFile (read_csv df ++ df)).toFinset = (renderFile df).toFinset := by
  have e1 : save_weather_data df fs = { fs with file := some df } := by
    simp [save_weather_data, trySave, hfile, hw]
  have hpw : List.Pairwise (fun a b => rowKey a ≠ rowKey b) df := by
    rw [← hnd]
    exact drop_dup_go_pairwise [] df
  have hpw2 : List.Pairwise (fun a b => rowKey a ≠ rowKey b) (read_csv df ++ df) := by
    rw [List.pairwise_append]
    refine ⟨?_, hpw, ?_⟩
    · rw [read_csv, List.pairwise_map]
      exact hpw.imp_of_mem
        (fun ha hb hne heq =>
          hne (rowKey_eq_of_readBack_eq (hdt _ ha) (hdt _ hb) heq))
    · intro a ha b hb
      rw [read_csv] at ha
      obtain ⟨a0, -, rfl⟩ := List.mem_map.mp ha
      exact rowKey_readBack_ne_dt (hdt b hb)
  have hded : drop_duplicates (read_csv df ++ df) = read_csv df ++ df :=
    drop_duplicates_eq_self hpw2
  have e2 : save_weather_data df { fs with file := some df } =
      { fs with file := some (read_csv df ++ df) } := by
    simp [save_weather_data, trySave, hr, hw, hded]
  have hcomp : renderCityRow ∘ readBackRow = renderCityRow :=
    funext renderCityRow_readBackRow
  have hrend : renderFile (read_csv df ++ df) =
      csvHeader :: (df.map renderCityRow ++ df.map renderCityRow) := by
    rw [renderFile, List.map_append, read_csv, List.map_map, hcomp]
  refine ⟨by rw [e1], by rw [e1, e2], hrend, ?_⟩
  rw [hrend, renderFile]
  simp [List.toFinset_append]

/-- Witness for the amended C2 at the one-row table of the end-to-end
scenario: the second file is the read-back row plus the fresh row. -/
theorem save_twice_appends_without_cross_dedup_witness :
    ((⟨none, false, false⟩ : FS).file = none ∧
      (∀ r ∈ [rowDelhi], r.timestamp.isDt = true) ∧
      drop_duplicates [rowDelhi] = [rowDelhi]) ∧
    ((save_weather_data [rowDelhi] ⟨none, false, false⟩).file = some [rowDelhi] ∧
      (save_weather_data [rowDelhi]
        (save_weather_data [rowDelhi] ⟨none, false, false⟩)).file =
        some (read_csv [rowDelhi] ++ [rowDelhi]) ∧
      renderFile (read_csv [rowDelhi] ++ [rowDelhi]) =
        csvHeader :: ([rowDelhi].map renderCityRow ++ [rowDelhi].map renderCityRow) ∧
      (renderFile (read_csv [rowDelhi] ++ [rowDelhi])).toFinset =
        (renderFile [rowDelhi]).toFinset) :=
  ⟨⟨rfl, by decide, by decide⟩,
   save_twice_appends_without_cross_dedup rfl rfl rfl (by decide) (by decide)⟩

/-- C3, counterexample: the prior file and the new table both hold a row
for the rendered key of 2024-06-01 12:00:00 in Delhi with different
temperature values, yet the written file retains BOTH rows — the read-back
prior row and the new row — because the string timestamp of the read-back
row never equals the datetime64 timestamp of the new row; the duplicate on
the rendered (timestamp, city) key is not removed and the prior values do
not win over the new ones. -/
theorem prior_does_not_win :
    (save_weather_data [rowDelhi] ⟨some [rowPrior], false, false⟩).file =
      some [readBackRow rowPrior, rowDelhi] ∧
    renderTs (readBackRow rowPrior).timestamp = renderTs rowDelhi.timestamp ∧
    (readBackRow rowPrior).city = rowDelhi.city ∧
    (readBackRow rowPrior).temperature ≠ rowDelhi.temperature := by
  refine ⟨rfl, rfl, rfl, ?_⟩
  decide

/-- C3, amended: with a readable prior file, the written result is the
deduplication of the read-back prior rows followed by the new rows, first
occurrence kept per (timestamp, city) key — but a read-back key, having a
string timestamp, never equals the key of a fresh datetime64-stamped row,
so deduplication fires only within each side: the first prior row for a
rendered key AND the first new row for that key are both retained in the
written file; the new row is never dropped in favour of the prior one. -/
theorem save_merge_keeps_both {fs : FS} {prior df l1 l2 m1 m2 : List CityRow}
    {p n : CityRow}
    (hfile : fs.file = some prior) (hr : fs.readFails = false)
    (hw : fs.writeFails = false)
    (hdt : ∀ r ∈ df, r.timestamp.isDt = true)
    (hpsplit : prior = l1 ++ p :: l2)
    (hfirstp : ∀ q ∈ l1, rowKey (readBackRow q) ≠ rowKey (readBackRow p))
    (hnsplit : df = m1 ++ n :: m2)
    (hfirstn : ∀ q ∈ m1, rowKey q ≠ rowKey n) :
    (save_weather_data df fs).file =
        some (drop_duplicates (read_csv prior ++ df)) ∧
      readBackRow p ∈ drop_duplicates (read_csv prior ++ df) ∧
      n ∈ drop_duplicates (read_csv prior ++ df) := by
  have e1 : save_weather_data df fs =
      { fs with file := some (drop_duplicates (read_csv prior ++ df)) } := by
    simp [save_weather_data, trySave, hfile, hr, hw]
  refine ⟨by rw [e1], ?_, ?_⟩
  · have heq : read_csv prior ++ df =
        l1.map readBackRow ++ readBackRow p :: (l2.map readBackRow ++ df) := by
      rw [hpsplit, read_csv]
      simp
    rw [heq]
    apply first_occ_mem_drop_dup_go ?_ (by simp)
    intro q hq
    obtain ⟨q0, hq0, rfl⟩ := List.mem_map.mp hq
    exact hfirstp q0 hq0
  · have hn : n ∈ df := by
      rw [hnsplit]
      exact List.mem_append_right _ (List.mem_cons_self _ _)
    have heq : read_csv prior ++ df = (read_csv prior ++ m1) ++ n :: m2 := by
      rw [hnsplit, List.append_assoc]
    rw [heq]
    apply first_occ_mem_drop_dup_go ?_ (by simp)
    intro q hq
    rcases List.mem_append.mp hq with hq1 | hq2
    · rw [read_csv] at hq1
      obtain ⟨q0, -, rfl⟩ := List.mem_map.mp hq1
      exact rowKey_readBack_ne_dt (hdt n hn)
    · exact hfirstn q hq2

/-- Witness for the amended C3: prior and new tables each hold one row for
the same rendered key with different values; both rows end up in the file. -/
theorem save_merge_keeps_both_witness :
    ((∀ r ∈ [rowDelhi], r.timestamp.isDt = true) ∧
      [rowPrior] = ([] : List CityRow) ++ rowPrior :: [] ∧
      [rowDelhi] = ([] : List CityRow) ++ rowDelhi :: []) ∧
    ((save_weather_data [rowDelhi] ⟨some [rowPrior], false, false⟩).file =
        some (drop_duplicates (read_csv [rowPrior] ++ [rowDelhi])) ∧
      readBackRow rowPrior ∈ drop_duplicates (read_csv [rowPrior] ++ [rowDelhi]) ∧
      rowDelhi ∈ drop_duplicates (read_csv [rowPrior] ++ [rowDelhi])) :=
  ⟨⟨by decide, rfl, rfl⟩,
   @save_merge_keeps_both ⟨some [rowPrior], false, false⟩ [rowPrior] [rowDelhi]
     [] [] [] [] rowPrior rowDelhi rfl rfl rfl (by decide) rfl
     (fun q hq => absurd hq (List.not_mem_nil q)) rfl
     (fun q hq => absurd hq (List.not_mem_nil q))⟩

/-- C7, counterexample: a read failure other than FileNotFoundError, here
the readFails environment on an existing file, does not lead to the new
table being written: the write is skipped and the prior content stays. -/
theorem read_error_skips_write :
    (save_weather_data [rowOther] ⟨some [rowPrior], true, false⟩).file =
        some [rowPrior] ∧
      (save_weather_data [rowOther] ⟨some [rowPrior], true, false⟩).file ≠
        some [rowOther] := by
  constructor
  · rfl
  · decide

/-- C7, amended: only a missing file (FileNotFoundError) is treated as no
prior data, in which case the new table is written in full; any other read
failure is caught by the outer handler and no write at all occurs, the
state being returned unchanged.  In both cases save_weather_data returns
normally — being a total function into FS it never raises to its caller. -/
theorem save_read_failure_split (df : List CityRow) (fs : FS) :
    (fs.file = none → fs.writeFails = false →
      (save_weather_data df fs).file = some df) ∧
    (fs.readFails = true → ∀ prior, fs.file = some prior →
      save_weather_data df fs = fs) := by
  constructor
  · intro h0 hw
    simp [save_weather_data, trySave, h0, hw]
  · intro hrf prior hfile
    simp [save_weather_data, trySave, hfile, hrf]

/-- Witness for the amended C7 at concrete inputs: the missing-file branch
writes the new table; the read-error branch leaves the state unchanged. -/
theorem save_read_failure_split_witness :
    ((⟨none, false, false⟩ : FS).file = none ∧
      (save_weather_data [rowOther] ⟨none, false, false⟩).file = some [rowOther]) ∧
    ((⟨some [rowPrior], true, false⟩ : FS).readFails = true ∧
      save_weather_data [rowOther] ⟨some [rowPrior], true, false⟩ =
        ⟨some [rowPrior], true, false⟩) :=
  ⟨⟨rfl, (save_read_failure_split [rowOther] ⟨none, false, false⟩).1 rfl rfl⟩,
   ⟨rfl, (save_read_failure_split [rowOther] ⟨some [rowPrior], true, false⟩).2
      rfl [rowPrior] rfl⟩⟩

/-- C8: end to end, with the one-city registry Delhi, no pre-existing
file, and a successful response with exactly the mocked entry, the
persisted file is the header row followed by exactly the one expected data
row. -/
theorem end_to_end_delhi :
    runMain [("Delhi", "1273294")]
        (fun _ => FetchOutcome.success ⟨some [goodEntry]⟩) ⟨none, false, false⟩ =
      Except.ok ⟨some [rowDelhi], false, false⟩ ∧
    renderFile [rowDelhi] =
      [csvHeader,
       "2024-06-01 12:00:00,30.5,40,3.2,1008,,0,10,01d,clear sky,Delhi"] := by
  constructor
  · rfl
  · rfl

/-- C9: when no file exists at the path, save_weather_data writes the new
table verbatim — no deduplication is applied on this branch. -/
theorem save_no_prior_writes_verbatim {df : List CityRow} {fs : FS}
    (h0 : fs.file = none) (hw : fs.writeFails = false) :
    (save_weather_data df fs).file = some df := by
  simp [save_weather_data, trySave, h0, hw]

/-- Witness for C9: a new table containing two distinct rows with the same
(timestamp, city) key is persisted with both rows. -/
theorem save_no_prior_writes_verbatim_witness :
    ((⟨none, false, false⟩ : FS).file = none ∧
      rowKey rowPrior = rowKey rowDelhi ∧ rowPrior ≠ rowDelhi) ∧
    (save_weather_data [rowPrior, rowDelhi] ⟨none, false, false⟩).file =
      some [rowPrior, rowDelhi] :=
  ⟨⟨rfl, rfl, by decide⟩, save_no_prior_writes_verbatim rfl rfl⟩

/-- C10: every table the driver accumulates comes from one registry pair:
its rows are exactly the rows of that city fetch mapped through tagCity
with the registry display name, so every row of the combined table has its
city field equal to the display name of the registry pair whose fetch
produced it.  The fetched rows themselves are of type Row, which carries no
city column: the column exists only after tagCity. -/
theorem combined_rows_city_from_registry {registry : List (String × String)}
    {responses : String → FetchOutcome} {tables : List (List CityRow)}
    (h : fetchAll registry responses = Except.ok tables) :
    ∀ t ∈ tables, ∃ p, p ∈ registry ∧
      (∃ rows : List Row, get_weather_data (responses p.2) = Except.ok (some rows) ∧
        t = rows.map (tagCity p.1)) ∧
      ∀ r ∈ t, r.city = p.1 := by
  induction registry generalizing tables with
  | nil =>
      rw [fetchAll] at h
      cases h
      intro t ht
      exact absurd ht (List.not_mem_nil t)
  | cons q rest ih =>
      obtain ⟨city, cid⟩ := q
      rw [fetchAll] at h
      cases hg : get_weather_data (responses cid) with
      | error e => rw [hg] at h; cases h
      | ok res =>
          rw [hg] at h
          cases res with
          | none =>
              intro t ht
              obtain ⟨p, hp, hrest⟩ := ih h t ht
              exact ⟨p, List.mem_cons_of_mem _ hp, hrest⟩
          | some rows =>
              cases hrec : fetchAll rest responses with
              | error e => rw [hrec] at h; cases h
              | ok tail =>
                  rw [hrec] at h
                  cases h
                  intro t ht
                  rcases List.mem_cons.mp ht with rfl | ht2
                  · refine ⟨(city, cid), List.mem_cons_self _ _, ⟨rows, hg, rfl⟩, ?_⟩
                    intro r hr
                    obtain ⟨r0, -, rfl⟩ := List.mem_map.mp hr
                    rfl
                  · obtain ⟨p, hp, hrest⟩ := ih hrec t ht2
                    exact ⟨p, List.mem_cons_of_mem _ hp, hrest⟩

/-- Witness for C10 at a concrete run: one city succeeds with one row, one
city fails; the accumulated table rows are tagged Delhi. -/
theorem combined_rows_city_from_registry_witness :
    fetchAll [("Delhi", "1273294")]
        (fun _ => FetchOutcome.success ⟨some [goodEntry]⟩) =
      Except.ok [[rowDelhi]] ∧
    (∀ t ∈ [[rowDelhi]], ∃ p, p ∈ [("Delhi", "1273294")] ∧
      (∃ rows : List Row,
        get_weather_data ((fun _ => FetchOutcome.success ⟨some [goodEntry]⟩) p.2) =
          Except.ok (some rows) ∧ t = rows.map (tagCity p.1)) ∧
      ∀ r ∈ t, r.city = p.1) :=
  ⟨rfl, @combined_rows_city_from_registry [("Delhi", "1273294")]
     (fun _ => FetchOutcome.success ⟨some [goodEntry]⟩) [[rowDelhi]] rfl⟩
